import Mathlib

/-!
Verification of the vehicle-history analysis engine of `car-check-ai`
(`backend/app/services/mot/analyzer.py`, `backend/app/services/check/ulez.py`,
`backend/app/services/data/vehicle_stats.py`) against its specification.

Embedding conventions:
* Python date strings (`"YYYY-MM-DD"`-prefixed, parsed with
  `datetime.strptime(s[:10], "%Y-%m-%d")`) are modelled as `Option ℤ`: `some d`
  is the proleptic day ordinal of a string whose 10-character prefix parses,
  `none` is a missing or unparsable date string.  Differences of `datetime`
  values in whole days are then ordinal differences.
* Python float arithmetic is modelled with exact rationals (`ℚ`).  The literals
  `365.25`, `0.8`, `0.3`, `1.5` are exact in both worlds; the engine compares
  quotients of integers against such constants.
* `int(odometerValue)` may fail (`ValueError`/`TypeError`); an odometer field is
  modelled as `Option ℤ`, `none` covering the missing and the unparsable case.
* Human-readable `detail` / `reason` strings that no analysis ever reads back
  are omitted from result records.
-/

namespace CarCheck

/-- Uppercase a string character by character (Python `str.upper()` for the
ASCII strings the engine compares against). -/
def strUpper (s : String) : String := ⟨s.data.map Char.toUpper⟩

/-- Lowercase a string character by character (Python `str.lower()`). -/
def strLower (s : String) : String := ⟨s.data.map Char.toLower⟩

/-- `leadsList needle hay` is true when `needle` is an initial run of `hay`. -/
def leadsList : List Char → List Char → Bool
  | [], _ => true
  | _ :: _, [] => false
  | a :: as, b :: bs => a == b && leadsList as bs

/-- `charListHas hay needle`: `needle` occurs contiguously inside `hay`
(Python `needle in hay` on strings). -/
def charListHas : List Char → List Char → Bool
  | [], needle => needle.isEmpty
  | c :: rest, needle => leadsList needle (c :: rest) || charListHas rest needle

/-- Python substring test `needle in hay`. -/
def strHas (hay needle : String) : Bool := charListHas hay.data needle.data

/-- One defect entry of an MOT test (`defects` / `rfrAndComments` item):
`type` is the severity string, `text` the free-text description.  The
`defects`-or-`rfrAndComments` fallback of the source is merged into the one
`defects` field. -/
structure Defect where
  type : String
  text : String
  deriving Repr, DecidableEq

/-- One MOT test record as consumed by `MOTAnalyzer` (`completedDate`,
`odometerValue`, `odometerUnit`, `testResult`, `defects`). -/
structure MotTest where
  completedDate : Option ℤ
  odometerValue : Option ℤ
  odometerUnit : Option String
  testResult : String
  defects : List Defect
  deriving Repr, DecidableEq

/-- A mileage reading extracted by `_detect_clocking` (`{date, miles,
test_result}`). -/
structure MileageReading where
  date : Option ℤ
  miles : ℤ
  testResult : String
  deriving Repr, DecidableEq

/-- A clocking flag (`type`, `severity`, optional `from_date`/`to_date`/
`drop_amount`; the formatted `detail` string is omitted). -/
structure ClockingFlag where
  type : String
  severity : String
  fromDate : Option ℤ := none
  toDate : Option ℤ := none
  dropAmount : Option ℤ := none
  deriving Repr, DecidableEq

/-- Result of `_detect_clocking` (`clocked`, `risk_level`, `flags`). -/
structure ClockingResult where
  clocked : Bool
  riskLevel : String
  flags : List ClockingFlag
  deriving Repr, DecidableEq

/-- `UK_AVG_ANNUAL_MILEAGE = 7400` from the source. -/
def UK_AVG_ANNUAL_MILEAGE : ℚ := 7400

/-- `MAX_REASONABLE_ANNUAL_MILEAGE = 30000` from the source. -/
def MAX_REASONABLE_ANNUAL_MILEAGE : ℚ := 30000

/-- The reading-extraction loop of `_detect_clocking`: one reading per test
whose odometer value parses as an integer. -/
def extractReadings (tests : List MotTest) : List MileageReading :=
  tests.filterMap fun t => t.odometerValue.map fun m =>
    { date := t.completedDate, miles := m, testResult := t.testResult }

/-- Consecutive pairs of a list, mirroring `for i in range(len(xs) - 1)` over
`(xs[i], xs[i+1])`. -/
def consecPairs : List α → List (α × α)
  | a :: b :: rest => (a, b) :: consecPairs (b :: rest)
  | _ => []

/-- The `days_apart` value of the drop check: absolute day difference when both
dates parse, `999` otherwise (the `except` branch). -/
def daysApartOr999 (c n : MileageReading) : ℤ :=
  match c.date, n.date with
  | some a, some b => |b - a|
  | _, _ => 999

/-- Drop detection for one consecutive pair: flag a mileage decrease unless it
is under 200 miles with test dates at most 14 days apart. -/
def dropFlagOfPair (c n : MileageReading) : Option ClockingFlag :=
  if n.miles < c.miles then
    if c.miles - n.miles < 200 ∧ daysApartOr999 c n ≤ 14 then none
    else some { type := "mileage_drop", severity := "high", fromDate := c.date,
                toDate := n.date, dropAmount := some (c.miles - n.miles) }
  else none

/-- `annual_rate = (next.miles - current.miles) / (days / 365.25)`. -/
def annualRate (milesDiff days : ℤ) : ℚ := (milesDiff : ℚ) / ((days : ℚ) / 365.25)

/-- Improbable-jump detection for one consecutive pair: skip when either date
is unparsable or the elapsed days are not positive, flag when the annualised
rate exceeds 30,000 miles/year. -/
def jumpFlagOfPair (c n : MileageReading) : Option ClockingFlag :=
  match c.date, n.date with
  | some a, some b =>
    let days := b - a
    if days ≤ 0 then none
    else if annualRate (n.miles - c.miles) days > MAX_REASONABLE_ANNUAL_MILEAGE then
      some { type := "improbable_jump", severity := "medium",
             fromDate := c.date, toDate := n.date }
    else none
  | _, _ => none

/-- All drop flags of a reading sequence. -/
def dropFlags (readings : List MileageReading) : List ClockingFlag :=
  (consecPairs readings).filterMap fun p => dropFlagOfPair p.1 p.2

/-- All improbable-jump flags of a reading sequence. -/
def jumpFlags (readings : List MileageReading) : List ClockingFlag :=
  (consecPairs readings).filterMap fun p => jumpFlagOfPair p.1 p.2

/-- The suspiciously-low-average check over the first and last reading: flag
when the overall average is below 30% of the UK mean and the final odometer
exceeds 10,000 miles; unparsable dates or a non-positive span yield no flag. -/
def lowFlags (readings : List MileageReading) : List ClockingFlag :=
  match readings.head?, readings.getLast? with
  | some first, some last =>
    match first.date, last.date with
    | some a, some b =>
      let years : ℚ := ((b - a : ℤ) : ℚ) / 365.25
      if 0 < years then
        let avgAnnual : ℚ := ((last.miles - first.miles : ℤ) : ℚ) / years
        if avgAnnual < UK_AVG_ANNUAL_MILEAGE * 0.3 ∧ 10000 < last.miles then
          [{ type := "suspiciously_low", severity := "low" }]
        else []
      else []
    | _, _ => []
  | _, _ => []

/-- The flag list assembled by `_detect_clocking` (drop flags, then jump flags,
then the suspicious-average flag). -/
def allFlags (readings : List MileageReading) : List ClockingFlag :=
  dropFlags readings ++ jumpFlags readings ++ lowFlags readings

/-- The risk-aggregation tail of `_detect_clocking`: any high flag gives
`high`/clocked, two medium flags give `medium`, any remaining flag gives
`low`, otherwise `none`. -/
def aggregateRisk (flags : List ClockingFlag) : ClockingResult :=
  let highFs := flags.filter fun f => f.severity == "high"
  let medFs := flags.filter fun f => f.severity == "medium"
  let lowFs := flags.filter fun f => f.severity == "low"
  if highFs ≠ [] then { clocked := true, riskLevel := "high", flags := flags }
  else if 2 ≤ medFs.length then { clocked := false, riskLevel := "medium", flags := flags }
  else if medFs ≠ [] ∨ lowFs ≠ [] then { clocked := false, riskLevel := "low", flags := flags }
  else { clocked := false, riskLevel := "none", flags := flags }

/-- `MOTAnalyzer._detect_clocking`: fewer than two parsed readings give the
`unknown` verdict, otherwise the three checks run and the flags are
aggregated. -/
def detectClocking (tests : List MotTest) : ClockingResult :=
  let readings := extractReadings tests
  if readings.length < 2 then { clocked := false, riskLevel := "unknown", flags := [] }
  else aggregateRisk (allFlags readings)

/-- The claim-C1 hypothesis that the mileage sequence is non-decreasing. -/
def NonDecreasingMiles (readings : List MileageReading) : Prop :=
  ∀ p ∈ consecPairs readings, p.1.miles ≤ p.2.miles

/-- The claim-C1 hypothesis that no consecutive pair with parseable dates and a
positive day span has an annualised rate above 30,000 miles/year. -/
def RateNeverExceeds (readings : List MileageReading) : Prop :=
  ∀ p ∈ consecPairs readings, ∀ a b : ℤ, p.1.date = some a → p.2.date = some b →
    0 < b - a → annualRate (p.2.miles - p.1.miles) (b - a) ≤ MAX_REASONABLE_ANNUAL_MILEAGE

end CarCheck

namespace CarCheck

/-- A two-reading history that is non-decreasing and slow (about 10 miles/year)
but ends above 10,000 miles: the suspicious-average check fires on it. -/
def lowAvgT1 : MotTest :=
  { completedDate := some 0, odometerValue := some 15000, odometerUnit := some "mi",
    testResult := "PASSED", defects := [] }

/-- Second reading of the low-average history, ten years later. -/
def lowAvgT2 : MotTest :=
  { completedDate := some 3652, odometerValue := some 15100, odometerUnit := some "mi",
    testResult := "PASSED", defects := [] }

theorem mem_consecPairs_two_le {p : α × α} {l : List α} (h : p ∈ consecPairs l) :
    2 ≤ l.length := by
  match l with
  | [] => simp [consecPairs] at h
  | [a] => simp [consecPairs] at h
  | a :: b :: rest => simp only [List.length_cons]; omega

theorem dropFlagOfPair_severity {c n : MileageReading} {f : ClockingFlag}
    (h : dropFlagOfPair c n = some f) : f.severity = "high" := by
  unfold dropFlagOfPair at h
  split at h
  · split at h
    · exact absurd h (by simp)
    · cases h; rfl
  · exact absurd h (by simp)

theorem aggregateRisk_of_mem_high {f : ClockingFlag} {flags : List ClockingFlag}
    (hmem : f ∈ flags) (hsev : f.severity = "high") :
    aggregateRisk flags = { clocked := true, riskLevel := "high", flags := flags } := by
  have hne : flags.filter (fun g => g.severity == "high") ≠ [] := by
    intro hnil
    have : f ∈ flags.filter (fun g => g.severity == "high") :=
      List.mem_filter.mpr ⟨hmem, by simp [hsev]⟩
    simp [hnil] at this
  simp [aggregateRisk, hne]

theorem detectClocking_eq_aggregate {tests : List MotTest}
    (h : 2 ≤ (extractReadings tests).length) :
    detectClocking tests = aggregateRisk (allFlags (extractReadings tests)) := by
  simp only [detectClocking]
  rw [if_neg (by omega)]

theorem dropPair_forces_high {c n : MileageReading} {tests : List MotTest}
    (hmem : (c, n) ∈ consecPairs (extractReadings tests))
    (hflag : dropFlagOfPair c n ≠ none) :
    (detectClocking tests).clocked = true ∧ (detectClocking tests).riskLevel = "high" := by
  obtain ⟨f, hf⟩ := Option.ne_none_iff_exists.mp hflag
  have hfd : f ∈ dropFlags (extractReadings tests) :=
    List.mem_filterMap.mpr ⟨(c, n), hmem, hf.symm⟩
  have hfall : f ∈ allFlags (extractReadings tests) := by
    unfold allFlags
    exact List.mem_append.mpr (Or.inl (List.mem_append.mpr (Or.inl hfd)))
  rw [detectClocking_eq_aggregate (mem_consecPairs_two_le hmem),
    aggregateRisk_of_mem_high hfall (dropFlagOfPair_severity hf.symm)]
  exact ⟨rfl, rfl⟩

/-- C1 (counterexample): the history `lowAvgT1, lowAvgT2` is non-decreasing and
its annualised rate never exceeds 30,000 miles/year, yet the detector returns
`riskLevel = "low"` with a `suspiciously_low` flag, because the
suspicious-average check is independent of the two hypotheses of the claim. -/
theorem clean_history_claim_fails_on_low_average :
    NonDecreasingMiles (extractReadings [lowAvgT1, lowAvgT2]) ∧
    RateNeverExceeds (extractReadings [lowAvgT1, lowAvgT2]) ∧
    ¬ ((detectClocking [lowAvgT1, lowAvgT2]).riskLevel = "none" ∧
       (detectClocking [lowAvgT1, lowAvgT2]).flags = []) := by
  refine ⟨?_, ?_, ?_⟩
  · norm_num [NonDecreasingMiles, extractReadings, consecPairs, lowAvgT1, lowAvgT2,
      List.filterMap]
  · norm_num [RateNeverExceeds, extractReadings, consecPairs, lowAvgT1, lowAvgT2,
      List.filterMap, annualRate, MAX_REASONABLE_ANNUAL_MILEAGE]
  · have : (detectClocking [lowAvgT1, lowAvgT2]).riskLevel = "low" := by
      norm_num [detectClocking, extractReadings, aggregateRisk, allFlags, dropFlags,
        jumpFlags, lowFlags, consecPairs, dropFlagOfPair, jumpFlagOfPair, daysApartOr999,
        annualRate, UK_AVG_ANNUAL_MILEAGE, MAX_REASONABLE_ANNUAL_MILEAGE,
        lowAvgT1, lowAvgT2, List.filterMap]
      decide
    simp [this]

/-- C1 (amended): a history with at least two parsed readings, non-decreasing
miles, annualised rate never above 30,000 miles/year, and on which the
suspicious-average check does not fire, yields `riskLevel = "none"` and an
empty flag list. -/
theorem clean_history_risk_none {tests : List MotTest}
    (hlen : 2 ≤ (extractReadings tests).length)
    (hmono : NonDecreasingMiles (extractReadings tests))
    (hrate : RateNeverExceeds (extractReadings tests))
    (hlow : lowFlags (extractReadings tests) = []) :
    (detectClocking tests).riskLevel = "none" ∧ (detectClocking tests).flags = [] := by
  have hdrop : dropFlags (extractReadings tests) = [] := by
    refine List.filterMap_eq_nil_iff.mpr fun p hp => ?_
    have := hmono p hp
    simp [dropFlagOfPair, not_lt.mpr this]
  have hjump : jumpFlags (extractReadings tests) = [] := by
    refine List.filterMap_eq_nil_iff.mpr fun p hp => ?_
    unfold jumpFlagOfPair
    cases hcd : p.1.date with
    | none => rfl
    | some a =>
      cases hnd : p.2.date with
      | none => rfl
      | some b =>
        by_cases hd : b - a ≤ 0
        · simp [hd]
        · have hr := hrate p hp a b hcd hnd (by omega)
          simp [hd, not_lt.mpr hr]
  have hall : allFlags (extractReadings tests) = [] := by
    simp [allFlags, hdrop, hjump, hlow]
  rw [detectClocking_eq_aggregate hlen, hall]
  exact ⟨rfl, rfl⟩

/-- A normal two-reading history: 10,000 to 15,000 miles over one year. -/
def normalT1 : MotTest :=
  { completedDate := some 0, odometerValue := some 10000, odometerUnit := some "mi",
    testResult := "PASSED", defects := [] }

/-- Second reading of the normal history. -/
def normalT2 : MotTest :=
  { completedDate := some 365, odometerValue := some 15000, odometerUnit := some "mi",
    testResult := "PASSED", defects := [] }

/-- Witness for the amended C1 theorem on the normal two-reading history. -/
theorem clean_history_risk_none_witness :
    (detectClocking [normalT1, normalT2]).riskLevel = "none" ∧
    (detectClocking [normalT1, normalT2]).flags = [] :=
  clean_history_risk_none
    (by norm_num [extractReadings, normalT1, normalT2, List.filterMap])
    (by norm_num [NonDecreasingMiles, extractReadings, consecPairs, normalT1, normalT2,
      List.filterMap])
    (by norm_num [RateNeverExceeds, extractReadings, consecPairs, normalT1, normalT2,
      List.filterMap, annualRate, MAX_REASONABLE_ANNUAL_MILEAGE])
    (by norm_num [lowFlags, extractReadings, normalT1, normalT2, List.filterMap,
      UK_AVG_ANNUAL_MILEAGE])

/-- C2: for a consecutive pair with a mileage decrease, the flag is suppressed
exactly when the drop is under 200 miles and the dates are at most 14 days
apart (999 standing in for unparsable dates); otherwise a high-severity
`mileage_drop` flag carrying the drop amount is emitted, and any such emitted
pair forces `riskLevel = "high"` and `clocked = true`. -/
theorem mileage_drop_tolerance (c n : MileageReading) (h : n.miles < c.miles) :
    (dropFlagOfPair c n = none ↔
      c.miles - n.miles < 200 ∧ daysApartOr999 c n ≤ 14) ∧
    (¬ (c.miles - n.miles < 200 ∧ daysApartOr999 c n ≤ 14) →
      dropFlagOfPair c n =
        some { type := "mileage_drop", severity := "high", fromDate := c.date,
               toDate := n.date, dropAmount := some (c.miles - n.miles) }) ∧
    (∀ tests : List MotTest, (c, n) ∈ consecPairs (extractReadings tests) →
      dropFlagOfPair c n ≠ none →
      (detectClocking tests).clocked = true ∧ (detectClocking tests).riskLevel = "high") := by
  refine ⟨?_, ?_, fun tests hmem hflag => dropPair_forces_high hmem hflag⟩
  · by_cases hs : c.miles - n.miles < 200 ∧ daysApartOr999 c n ≤ 14
    · simp [dropFlagOfPair, h, hs]
    · simp [dropFlagOfPair, h, hs]
  · intro hs
    simp [dropFlagOfPair, h, hs]

/-- The spec example history 50,000 / 60,000 / 45,000: reading two. -/
def dropExT1 : MotTest :=
  { completedDate := some 0, odometerValue := some 50000, odometerUnit := some "mi",
    testResult := "PASSED", defects := [] }

/-- The spec example history: second test at 60,000 miles a year later. -/
def dropExT2 : MotTest :=
  { completedDate := some 371, odometerValue := some 60000, odometerUnit := some "mi",
    testResult := "PASSED", defects := [] }

/-- The spec example history: third test drops to 45,000 miles. -/
def dropExT3 : MotTest :=
  { completedDate := some 734, odometerValue := some 45000, odometerUnit := some "mi",
    testResult := "PASSED", defects := [] }

/-- The second reading of the drop-example history. -/
def dropExR2 : MileageReading := { date := some 371, miles := 60000, testResult := "PASSED" }

/-- The third reading of the drop-example history. -/
def dropExR3 : MileageReading := { date := some 734, miles := 45000, testResult := "PASSED" }

/-- Witness for C2 on the 50,000 / 60,000 / 45,000 history: the 15,000-mile
drop forces a clocked, high-risk verdict. -/
theorem mileage_drop_tolerance_witness :
    (detectClocking [dropExT1, dropExT2, dropExT3]).clocked = true ∧
    (detectClocking [dropExT1, dropExT2, dropExT3]).riskLevel = "high" :=
  (mileage_drop_tolerance dropExR2 dropExR3 (by decide)).2.2
    [dropExT1, dropExT2, dropExT3] (by decide) (by decide)

/-- C10: when either date of a consecutive pair is unparsable, `days_apart`
defaults to 999, so the fail/retest suppression can never apply: any mileage
decrease, however small, emits the high-severity drop flag, and such a pair in
the history forces `riskLevel = "high"` and `clocked = true`. -/
theorem unparsable_date_no_suppression (c n : MileageReading)
    (hdate : c.date = none ∨ n.date = none) (h : n.miles < c.miles) :
    daysApartOr999 c n = 999 ∧
    dropFlagOfPair c n =
      some { type := "mileage_drop", severity := "high", fromDate := c.date,
             toDate := n.date, dropAmount := some (c.miles - n.miles) } ∧
    (∀ tests : List MotTest, (c, n) ∈ consecPairs (extractReadings tests) →
      (detectClocking tests).clocked = true ∧ (detectClocking tests).riskLevel = "high") := by
  have hdays : daysApartOr999 c n = 999 := by
    unfold daysApartOr999
    rcases hdate with hc | hn
    · rw [hc]
    · rw [hn]
      cases c.date <;> rfl
  have hflag : dropFlagOfPair c n =
      some { type := "mileage_drop", severity := "high", fromDate := c.date,
             toDate := n.date, dropAmount := some (c.miles - n.miles) } := by
    simp [dropFlagOfPair, h, hdays]
  exact ⟨hdays, hflag, fun tests hmem =>
    dropPair_forces_high hmem (by simp [hflag])⟩

/-- A test with an unparsable date and a one-mile drop follows it. -/
def badDateT1 : MotTest :=
  { completedDate := none, odometerValue := some 50001, odometerUnit := some "mi",
    testResult := "PASSED", defects := [] }

/-- The test after the unparsable-date test, one mile lower. -/
def badDateT2 : MotTest :=
  { completedDate := some 10, odometerValue := some 50000, odometerUnit := some "mi",
    testResult := "PASSED", defects := [] }

/-- The reading of the unparsable-date test. -/
def badDateR1 : MileageReading := { date := none, miles := 50001, testResult := "PASSED" }

/-- The reading following the unparsable-date test. -/
def badDateR2 : MileageReading := { date := some 10, miles := 50000, testResult := "PASSED" }

/-- Witness for C10: a one-mile drop across an unparsable date forces a
clocked, high-risk verdict. -/
theorem unparsable_date_no_suppression_witness :
    (detectClocking [badDateT1, badDateT2]).clocked = true ∧
    (detectClocking [badDateT1, badDateT2]).riskLevel = "high" :=
  (unparsable_date_no_suppression badDateR1 badDateR2 (Or.inl rfl) (by decide)).2.2
    [badDateT1, badDateT2] (by decide)

end CarCheck

namespace CarCheck

/-- The `SEVERITY_WEIGHTS` table of the source with the `.get(severity, 0)`
default for unknown severities. -/
def severityWeight (severity : String) : ℚ :=
  if severity = "DANGEROUS" then -25
  else if severity = "MAJOR" then -15
  else if severity = "MINOR" then -5
  else if severity = "ADVISORY" then -3
  else 0

/-- Recency weight of the test at index `i` (0 = oldest) in a history of
`numTests` tests: newest 1.0, second-newest 0.8, third-newest 0.6, older 0.3. -/
def recencyWeight (numTests i : ℕ) : ℚ :=
  if numTests - 1 - i = 0 then 1
  else if numTests - 1 - i = 1 then 0.8
  else if numTests - 1 - i = 2 then 0.6
  else 0.3

/-- The defect-deduction loop of `_calculate_condition_score`: for the test at
index `i` add `severityWeight × recencyWeight` for each of its defects. -/
def defectDelta (numTests : ℕ) : ℕ → List MotTest → ℚ
  | _, [] => 0
  | i, t :: rest =>
    (t.defects.map fun d => severityWeight (strUpper d.type)).sum * recencyWeight numTests i
      + defectDelta numTests (i + 1) rest

/-- Total recency-weighted defect deduction of a history. -/
def defectDeltaTotal (tests : List MotTest) : ℚ := defectDelta tests.length 0 tests

/-- Number of tests whose uppercased result is `FAILED`. -/
def failuresCount (tests : List MotTest) : ℕ :=
  (tests.filter fun t => strUpper t.testResult == "FAILED").length

/-- The mileage-vs-age factor: estimated age is the first-to-last test span in
years plus 3; deduct 10 when the latest odometer exceeds twice the expected
mileage, 5 when it exceeds 1.5 times it.  A missing or unparsable date or
odometer skips the factor (the `except` branch / the `get` default of 0). -/
def mileageDelta (tests : List MotTest) : ℚ :=
  match tests.head?, tests.getLast? with
  | some firstT, some latestT =>
    match firstT.completedDate, latestT.completedDate with
    | some d1, some d2 =>
      match latestT.odometerValue with
      | some latestOdometer =>
        if 0 < ((d2 - d1 : ℤ) : ℚ) / 365.25 + 3 ∧ 0 < latestOdometer then
          if (latestOdometer : ℚ) / ((((d2 - d1 : ℤ) : ℚ) / 365.25 + 3) * UK_AVG_ANNUAL_MILEAGE) > 2 then -10
          else if (latestOdometer : ℚ) / ((((d2 - d1 : ℤ) : ℚ) / 365.25 + 3) * UK_AVG_ANNUAL_MILEAGE) > 1.5 then -5
          else 0
        else 0
      | none => 0
    | _, _ => 0
  | _, _ => 0

/-- Number of `ADVISORY` defects on one test. -/
def advisoryCount (t : MotTest) : ℕ :=
  (t.defects.filter fun d => strUpper d.type == "ADVISORY").length

/-- The advisory-trend factor over the last three tests: deduct 5 when the
advisory counts strictly increase, add 3 when they strictly decrease. -/
def advisoryDelta (tests : List MotTest) : ℚ :=
  if 3 ≤ tests.length then
    match tests.drop (tests.length - 3) with
    | [a, b, c] =>
      if advisoryCount a < advisoryCount b ∧ advisoryCount b < advisoryCount c then -5
      else if advisoryCount c < advisoryCount b ∧ advisoryCount b < advisoryCount a then 3
      else 0
    | _ => 0
  else 0

/-- The score of `_calculate_condition_score` before the history-length cap:
100 plus the (negative) defect delta, minus 8 per failed test, plus the
mileage and advisory-trend factors. -/
def rawScore (tests : List MotTest) : ℚ :=
  100 + defectDeltaTotal tests - 8 * (failuresCount tests : ℚ)
    + mileageDelta tests + advisoryDelta tests

/-- The history-length confidence cap: `min(score, 85)` for a single test,
`min(score, 92)` for two tests, no cap otherwise. -/
def cappedScore (tests : List MotTest) : ℚ :=
  if tests.length = 1 then min (rawScore tests) 85
  else if tests.length = 2 then min (rawScore tests) 92
  else rawScore tests

/-- Python `round()` (banker's rounding: ties go to the even integer). -/
def pyRound (q : ℚ) : ℤ :=
  if q - ⌊q⌋ < 1/2 then ⌊q⌋
  else if 1/2 < q - ⌊q⌋ then ⌊q⌋ + 1
  else if ⌊q⌋ % 2 = 0 then ⌊q⌋ else ⌊q⌋ + 1

/-- `MOTAnalyzer._calculate_condition_score`: neutral 50 on an empty history,
otherwise the capped score rounded and clamped to `[0, 100]`. -/
def calculateConditionScore (tests : List MotTest) : ℤ :=
  if tests.isEmpty then 50
  else max 0 (min 100 (pyRound (cappedScore tests)))

theorem pyRound_le {q : ℚ} {n : ℤ} (h : q ≤ (n : ℚ)) : pyRound q ≤ n := by
  have hf : ⌊q⌋ ≤ n := by
    have h2 := Int.floor_le_floor h
    rwa [Int.floor_intCast] at h2
  have hkey : ¬ (q - ⌊q⌋ < 1/2) → ⌊q⌋ + 1 ≤ n := by
    intro hge
    rcases lt_or_eq_of_le hf with hlt | heq
    · omega
    · exfalso
      have h1 : (1 : ℚ)/2 ≤ q - (⌊q⌋ : ℚ) := not_lt.mp hge
      have h2 : q - (⌊q⌋ : ℚ) ≤ 0 := by
        rw [heq]
        exact sub_nonpos.mpr h
      linarith
  unfold pyRound
  split_ifs with h1 h2 h3
  · exact hf
  · exact hkey h1
  · exact hf
  · exact hkey h1

theorem pyRound_intCast (n : ℤ) : pyRound ((n : ℤ) : ℚ) = n := by
  unfold pyRound
  rw [Int.floor_intCast]
  norm_num

/-- The C5 input: a single test at 37,000 miles, passed, with one Dangerous
defect. -/
def singleDangerousTest : MotTest :=
  { completedDate := some 0, odometerValue := some 37000, odometerUnit := some "mi",
    testResult := "PASSED", defects := [{ type := "DANGEROUS", text := "Brake binding" }] }

/-- C5: the single 37,000-mile passed test with one Dangerous defect scores
exactly 70 = 100 − 25 (recency-weighted Dangerous) − 5 (mileage ratio above
1.5 at inferred age 3), with the single-test cap of 85 not binding. -/
theorem single_dangerous_pass_scores_70 :
    calculateConditionScore [singleDangerousTest] = 70 := by
  have h1 : strUpper "DANGEROUS" = "DANGEROUS" := by decide
  have h2 : (strUpper "PASSED" == "FAILED") = false := by decide
  norm_num [calculateConditionScore, cappedScore, rawScore, defectDeltaTotal, defectDelta,
    recencyWeight, severityWeight, failuresCount, mileageDelta, advisoryDelta,
    advisoryCount, UK_AVG_ANNUAL_MILEAGE, singleDangerousTest, List.filter, pyRound,
    h1, h2]

end CarCheck

namespace CarCheck

theorem defectDelta_eq_zero (N : ℕ) (tests : List MotTest)
    (h : ∀ t ∈ tests, t.defects = []) : ∀ i, defectDelta N i tests = 0 := by
  induction tests with
  | nil => intro i; rfl
  | cons t rest ih =>
    intro i
    have ht : t.defects = [] := h t (by simp)
    have hrest := ih fun x hx => h x (by simp [hx])
    simp [defectDelta, ht, hrest (i + 1)]

theorem failuresCount_replicate (t : MotTest) (n : ℕ) (h : t.testResult = "PASSED") :
    failuresCount (List.replicate n t) = 0 := by
  unfold failuresCount
  rw [List.filter_replicate]
  have hb : (strUpper t.testResult == "FAILED") = false := by rw [h]; decide
  rw [hb]
  simp

theorem mileageDelta_replicate (t : MotTest) (n : ℕ) (hn : 3 ≤ n)
    (hodo : ∀ m : ℤ, t.odometerValue = some m → m ≤ 33300) :
    mileageDelta (List.replicate n t) = 0 := by
  have hn0 : n ≠ 0 := by omega
  unfold mileageDelta
  rw [List.head?_replicate, List.getLast?_replicate]
  simp only [if_neg hn0]
  cases hc : t.completedDate with
  | none => rfl
  | some d =>
    cases ho : t.odometerValue with
    | none => rfl
    | some m =>
      have hm : (m : ℚ) ≤ 33300 := by exact_mod_cast hodo m ho
      have hsub : ((d - d : ℤ) : ℚ) / 365.25 + 3 = 3 := by norm_num
      simp only [hsub]
      by_cases hpos : (0 : ℚ) < 3 ∧ 0 < m
      · rw [if_pos hpos]
        have hexp : (3 : ℚ) * UK_AVG_ANNUAL_MILEAGE = 22200 := by
          norm_num [UK_AVG_ANNUAL_MILEAGE]
        rw [hexp]
        have hr2 : ¬ ((m : ℚ) / 22200 > 2) := by
          intro hcon
          rw [gt_iff_lt, lt_div_iff₀ (by norm_num : (0 : ℚ) < 22200)] at hcon
          linarith
        have hr15 : ¬ ((m : ℚ) / 22200 > 1.5) := by
          intro hcon
          rw [gt_iff_lt, lt_div_iff₀ (by norm_num : (0 : ℚ) < 22200)] at hcon
          norm_num at hcon
          linarith
        rw [if_neg hr2, if_neg hr15]
      · rw [if_neg hpos]

theorem advisoryDelta_replicate (t : MotTest) (n : ℕ) (hn : 3 ≤ n) :
    advisoryDelta (List.replicate n t) = 0 := by
  unfold advisoryDelta
  rw [List.length_replicate, if_pos hn, List.drop_replicate]
  have h3 : n - (n - 3) = 3 := by omega
  rw [h3]
  simp [List.replicate, lt_irrefl]

theorem rawScore_replicate_clean (t : MotTest) (n : ℕ) (hn : 3 ≤ n)
    (hdef : t.defects = []) (hres : t.testResult = "PASSED")
    (hodo : ∀ m : ℤ, t.odometerValue = some m → m ≤ 33300) :
    rawScore (List.replicate n t) = 100 := by
  unfold rawScore defectDeltaTotal
  rw [defectDelta_eq_zero _ _ (fun x hx => by rwa [List.eq_of_mem_replicate hx]) 0,
    failuresCount_replicate t n hres, mileageDelta_replicate t n hn hodo,
    advisoryDelta_replicate t n hn]
  norm_num

/-- Three identical clean passing tests at 50,000 miles on the same date. -/
def cleanHighMileageTest : MotTest :=
  { completedDate := some 0, odometerValue := some 50000, odometerUnit := some "mi",
    testResult := "PASSED", defects := [] }

/-- C6 (counterexample): a history of three identical clean passing tests does
not always score 100 — at 50,000 recorded miles the mileage-vs-age deduction
fires (ratio above 2 at inferred age 3) and the score is 90. -/
theorem identical_clean_tests_can_score_below_100 :
    cleanHighMileageTest.defects = [] ∧ cleanHighMileageTest.testResult = "PASSED" ∧
    calculateConditionScore (List.replicate 3 cleanHighMileageTest) = 90 := by
  refine ⟨rfl, rfl, ?_⟩
  have h2 : (strUpper "PASSED" == "FAILED") = false := by decide
  norm_num [calculateConditionScore, cappedScore, rawScore, defectDeltaTotal, defectDelta,
    recencyWeight, severityWeight, failuresCount, mileageDelta, advisoryDelta,
    advisoryCount, UK_AVG_ANNUAL_MILEAGE, cleanHighMileageTest, List.filter, pyRound,
    List.replicate, h2]

/-- C6 (amended): the history-length cap clamps one-test histories to at most
85 and two-test histories to at most 92; the cap only lowers (never raises) a
score and does not apply from three tests on; and three or more identical
clean passing tests score exactly 100 provided the recorded odometer does not
exceed 33,300 miles (1.5 times the mileage expected at the inferred age of 3
years), the condition the counterexample forces. -/
theorem history_length_cap :
    (∀ tests : List MotTest, tests.length = 1 → calculateConditionScore tests ≤ 85) ∧
    (∀ tests : List MotTest, tests.length = 2 → calculateConditionScore tests ≤ 92) ∧
    (∀ tests : List MotTest,
      cappedScore tests ≤ rawScore tests ∧
      (tests.length = 1 → rawScore tests ≤ 85 → cappedScore tests = rawScore tests) ∧
      (tests.length = 2 → rawScore tests ≤ 92 → cappedScore tests = rawScore tests) ∧
      (3 ≤ tests.length → cappedScore tests = rawScore tests)) ∧
    (∀ (t : MotTest) (n : ℕ), 3 ≤ n → t.defects = [] → t.testResult = "PASSED" →
      (∀ m : ℤ, t.odometerValue = some m → m ≤ 33300) →
      calculateConditionScore (List.replicate n t) = 100) := by
  refine ⟨?_, ?_, ?_, ?_⟩
  · intro tests h1
    obtain ⟨a, rfl⟩ := List.length_eq_one.mp h1
    unfold calculateConditionScore
    rw [if_neg (by simp)]
    have hc : cappedScore [a] = min (rawScore [a]) 85 := by
      unfold cappedScore
      simp
    rw [hc]
    have hle : pyRound (min (rawScore [a]) 85) ≤ 85 :=
      pyRound_le (le_trans (min_le_right _ _) (by norm_num))
    omega
  · intro tests h2
    match tests, h2 with
    | [a, b], _ =>
      unfold calculateConditionScore
      rw [if_neg (by simp)]
      have hc : cappedScore [a, b] = min (rawScore [a, b]) 92 := by
        unfold cappedScore
        simp
      rw [hc]
      have hle : pyRound (min (rawScore [a, b]) 92) ≤ 92 :=
        pyRound_le (le_trans (min_le_right _ _) (by norm_num))
      omega
  · intro tests
    refine ⟨?_, ?_, ?_, ?_⟩
    · unfold cappedScore
      split_ifs with h1 h2
      · exact min_le_left _ _
      · exact min_le_left _ _
      · exact le_refl _
    · intro h1 hraw
      unfold cappedScore
      rw [if_pos h1]
      exact min_eq_left hraw
    · intro h2 hraw
      unfold cappedScore
      rw [if_neg (by omega), if_pos h2]
      exact min_eq_left hraw
    · intro h3
      unfold cappedScore
      rw [if_neg (by omega), if_neg (by omega)]
  · intro t n hn hdef hres hodo
    have hraw := rawScore_replicate_clean t n hn hdef hres hodo
    unfold calculateConditionScore
    rw [if_neg (by simp [List.isEmpty_iff]; omega)]
    have hc : cappedScore (List.replicate n t) = rawScore (List.replicate n t) := by
      unfold cappedScore
      rw [List.length_replicate, if_neg (by omega), if_neg (by omega)]
    rw [hc, hraw]
    have h100 : (100 : ℚ) = ((100 : ℤ) : ℚ) := by norm_num
    rw [h100, pyRound_intCast]
    decide

/-- A clean passing test at a modest 20,000 miles. -/
def cleanModestTest : MotTest :=
  { completedDate := some 0, odometerValue := some 20000, odometerUnit := some "mi",
    testResult := "PASSED", defects := [] }

/-- Witness for the amended C6 theorem: one clean test is at most 85, two are
at most 92, the cap never raises, and three identical modest clean tests score
exactly 100. -/
theorem history_length_cap_witness :
    calculateConditionScore [cleanModestTest] ≤ 85 ∧
    calculateConditionScore [cleanModestTest, cleanModestTest] ≤ 92 ∧
    cappedScore [cleanModestTest] ≤ rawScore [cleanModestTest] ∧
    calculateConditionScore (List.replicate 3 cleanModestTest) = 100 :=
  ⟨history_length_cap.1 [cleanModestTest] rfl,
   history_length_cap.2.1 [cleanModestTest, cleanModestTest] rfl,
   (history_length_cap.2.2.1 [cleanModestTest]).1,
   history_length_cap.2.2.2 cleanModestTest 3 (by norm_num) rfl rfl
     (fun m hm => by simp [cleanModestTest] at hm; omega)⟩

end CarCheck

namespace CarCheck

/-- A mined failure pattern (`category`, `occurrences`, `concern_level`). -/
structure FailurePattern where
  category : String
  occurrences : ℕ
  concernLevel : String
  deriving Repr, DecidableEq

/-- The fixed ordered keyword list of `_analyze_failure_patterns`. -/
def motCategories : List String :=
  ["brake", "tyre", "suspension", "lighting", "exhaust", "steering", "corrosion",
   "rust", "emission", "windscreen", "seatbelt", "horn", "mirror"]

/-- First keyword occurring in the lowercased defect text (the `break` after
the first match), `none` when no keyword matches. -/
def firstCategory (text : String) : Option String :=
  motCategories.find? fun c => strHas (strLower text) c

/-- Add one occurrence of category `c` to an insertion-ordered tally list
(Python dict update `category_counts[category] = get(category, 0) + 1`). -/
def bump : List (String × ℕ) → String → List (String × ℕ)
  | [], c => [(c, 1)]
  | (k, v) :: rest, c => if k = c then (k, v + 1) :: rest else (k, v) :: bump rest c

/-- Tally of matched categories over every defect of every test, in first-seen
order (Python dict insertion order). -/
def countCategories (tests : List MotTest) : List (String × ℕ) :=
  tests.foldl
    (fun acc t =>
      t.defects.foldl
        (fun acc2 d =>
          match firstCategory d.text with
          | some c => bump acc2 c
          | none => acc2)
        acc)
    []

/-- Stable insertion by strictly greater count (`sorted(..., key=lambda x:
-x[1])` places an earlier entry before later entries of equal count). -/
def insertByCountDesc (x : String × ℕ) : List (String × ℕ) → List (String × ℕ)
  | [] => [x]
  | y :: ys => if y.2 ≤ x.2 then x :: y :: ys else y :: insertByCountDesc x ys

/-- Stable sort of the tally by descending count. -/
def sortByCountDesc : List (String × ℕ) → List (String × ℕ)
  | [] => []
  | x :: xs => insertByCountDesc x (sortByCountDesc xs)

/-- `MOTAnalyzer._analyze_failure_patterns`: sort the tally by descending
count and emit a pattern for every category with at least two occurrences,
`high` concern from four occurrences, else `medium` (the `low` arm of the
source expression is unreachable past the `count >= 2` guard). -/
def analyzeFailurePatterns (tests : List MotTest) : List FailurePattern :=
  (sortByCountDesc (countCategories tests)).filterMap fun p =>
    if 2 ≤ p.2 then
      some { category := p.1, occurrences := p.2,
             concernLevel :=
               if 4 ≤ p.2 then "high" else if 2 ≤ p.2 then "medium" else "low" }
    else none

theorem mem_insertByCountDesc {z x : String × ℕ} {l : List (String × ℕ)}
    (h : z ∈ insertByCountDesc x l) : z = x ∨ z ∈ l := by
  induction l with
  | nil =>
    simp [insertByCountDesc] at h
    exact Or.inl h
  | cons y ys ih =>
    unfold insertByCountDesc at h
    split_ifs at h with hle
    · rcases List.mem_cons.mp h with rfl | h2
      · exact Or.inl rfl
      · exact Or.inr h2
    · rcases List.mem_cons.mp h with rfl | h2
      · exact Or.inr (List.mem_cons_self _ _)
      · rcases ih h2 with rfl | h3
        · exact Or.inl rfl
        · exact Or.inr (List.mem_cons.mpr (Or.inr h3))

theorem pairwise_insertByCountDesc {x : String × ℕ} {l : List (String × ℕ)}
    (h : List.Pairwise (fun a b : String × ℕ => b.2 ≤ a.2) l) :
    List.Pairwise (fun a b : String × ℕ => b.2 ≤ a.2) (insertByCountDesc x l) := by
  induction l with
  | nil => simp [insertByCountDesc]
  | cons y ys ih =>
    rw [List.pairwise_cons] at h
    unfold insertByCountDesc
    split_ifs with hle
    · rw [List.pairwise_cons]
      constructor
      · intro z hz
        rcases List.mem_cons.mp hz with rfl | hz2
        · exact hle
        · exact le_trans (h.1 z hz2) hle
      · exact List.pairwise_cons.mpr h
    · rw [List.pairwise_cons]
      constructor
      · intro z hz
        rcases mem_insertByCountDesc hz with rfl | hz2
        · exact le_of_not_le hle
        · exact h.1 z hz2
      · exact ih h.2

theorem pairwise_sortByCountDesc (l : List (String × ℕ)) :
    List.Pairwise (fun a b : String × ℕ => b.2 ≤ a.2) (sortByCountDesc l) := by
  induction l with
  | nil => simp [sortByCountDesc]
  | cons x xs ih => exact pairwise_insertByCountDesc ih

theorem pairwise_filterMap_of_pairwise {α β : Type} {R : α → α → Prop}
    {S : β → β → Prop} {f : α → Option β} {l : List α}
    (hl : List.Pairwise R l)
    (hf : ∀ a b a' b', R a b → f a = some a' → f b = some b' → S a' b') :
    List.Pairwise S (l.filterMap f) := by
  induction l with
  | nil => simp
  | cons x xs ih =>
    rw [List.pairwise_cons] at hl
    rw [List.filterMap_cons]
    cases hfx : f x with
    | none => exact ih hl.2
    | some y =>
      rw [List.pairwise_cons]
      constructor
      · intro z hz
        obtain ⟨b, hb, hfb⟩ := List.mem_filterMap.mp hz
        exact hf x b y z (hl.1 b hb) hfx hfb
      · exact ih hl.2

/-- C7: every emitted failure pattern has at least two occurrences, its
concern level is `high` exactly from four occurrences and `medium` otherwise,
and the emitted list is ordered by descending occurrence count. -/
theorem failure_patterns_thresholds_and_order (tests : List MotTest) :
    ((analyzeFailurePatterns tests).all fun p =>
      decide (2 ≤ p.occurrences) &&
        (p.concernLevel == if 4 ≤ p.occurrences then "high" else "medium")) = true ∧
    List.Pairwise (fun a b : FailurePattern => b.occurrences ≤ a.occurrences)
      (analyzeFailurePatterns tests) := by
  constructor
  · rw [List.all_eq_true]
    intro p hp
    obtain ⟨x, hx, hfx⟩ := List.mem_filterMap.mp hp
    by_cases h2 : 2 ≤ x.2
    · rw [if_pos h2] at hfx
      cases hfx
      simp only [decide_eq_true_eq, Bool.and_eq_true, beq_iff_eq]
      refine ⟨by simpa using h2, ?_⟩
      by_cases h4 : 4 ≤ x.2
      · simp [h4]
      · simp [h4, h2]
    · rw [if_neg h2] at hfx
      cases hfx
  · refine pairwise_filterMap_of_pairwise (pairwise_sortByCountDesc _) ?_
    intro a b a' b' hR ha hb
    by_cases h2a : 2 ≤ a.2
    · rw [if_pos h2a] at ha
      cases ha
      by_cases h2b : 2 ≤ b.2
      · rw [if_pos h2b] at hb
        cases hb
        simpa using hR
      · rw [if_neg h2b] at hb
        cases hb
    · rw [if_neg h2a] at ha
      cases ha

end CarCheck

namespace CarCheck

/-- `PETROL_MIN_EURO = 4` from the source. -/
def PETROL_MIN_EURO : ℕ := 4

/-- `DIESEL_MIN_EURO = 6` from the source. -/
def DIESEL_MIN_EURO : ℕ := 6

/-- `EXEMPT_FUEL_TYPES` from the source. -/
def EXEMPT_FUEL_TYPES : List String := ["ELECTRICITY", "ELECTRIC", "HYDROGEN"]

/-- `PETROL_FUEL_TYPES` from the source. -/
def PETROL_FUEL_TYPES : List String := ["PETROL"]

/-- `DIESEL_FUEL_TYPES` from the source. -/
def DIESEL_FUEL_TYPES : List String := ["DIESEL", "HEAVY OIL"]

/-- One entry of the `ZONES` table (`type` and `class` are stored as `ztype`
and `zclass`). -/
structure ZoneRule where
  id : String
  name : String
  region : String
  ztype : String
  zclass : String
  carsAffected : Bool
  charge : String
  chargeAmount : ℚ
  petrolMinEuro : Option ℕ
  dieselMinEuro : Option ℕ
  deriving Repr, DecidableEq

/-- The 14-entry `ZONES` table, in source (dict insertion) order. -/
def ZONES : List ZoneRule :=
  [{ id := "london_ulez", name := "London ULEZ", region := "England",
     ztype := "daily_charge", zclass := "D", carsAffected := true,
     charge := "£12.50/day", chargeAmount := 12.50,
     petrolMinEuro := some 4, dieselMinEuro := some 6 },
   { id := "london_lez", name := "London LEZ", region := "England",
     ztype := "daily_charge", zclass := "LEZ", carsAffected := false,
     charge := "N/A (cars exempt)", chargeAmount := 0,
     petrolMinEuro := some 4, dieselMinEuro := some 6 },
   { id := "birmingham_caz", name := "Birmingham CAZ", region := "England",
     ztype := "daily_charge", zclass := "D", carsAffected := true,
     charge := "£8/day", chargeAmount := 8.00,
     petrolMinEuro := some 4, dieselMinEuro := some 6 },
   { id := "bristol_caz", name := "Bristol CAZ", region := "England",
     ztype := "daily_charge", zclass := "D", carsAffected := true,
     charge := "£9/day", chargeAmount := 9.00,
     petrolMinEuro := some 4, dieselMinEuro := some 6 },
   { id := "bath_caz", name := "Bath CAZ", region := "England",
     ztype := "daily_charge", zclass := "C", carsAffected := false,
     charge := "N/A (cars exempt)", chargeAmount := 0,
     petrolMinEuro := some 4, dieselMinEuro := some 6 },
   { id := "bradford_caz", name := "Bradford CAZ", region := "England",
     ztype := "daily_charge", zclass := "C", carsAffected := false,
     charge := "N/A (cars exempt)", chargeAmount := 0,
     petrolMinEuro := some 4, dieselMinEuro := some 6 },
   { id := "portsmouth_caz", name := "Portsmouth CAZ", region := "England",
     ztype := "daily_charge", zclass := "B", carsAffected := false,
     charge := "N/A (cars exempt)", chargeAmount := 0,
     petrolMinEuro := some 4, dieselMinEuro := some 6 },
   { id := "sheffield_caz", name := "Sheffield CAZ", region := "England",
     ztype := "daily_charge", zclass := "C", carsAffected := false,
     charge := "N/A (cars exempt)", chargeAmount := 0,
     petrolMinEuro := some 4, dieselMinEuro := some 6 },
   { id := "tyneside_caz", name := "Tyneside CAZ (Newcastle/Gateshead)",
     region := "England", ztype := "daily_charge", zclass := "C",
     carsAffected := false, charge := "N/A (cars exempt)", chargeAmount := 0,
     petrolMinEuro := some 4, dieselMinEuro := some 6 },
   { id := "glasgow_lez", name := "Glasgow LEZ", region := "Scotland",
     ztype := "penalty", zclass := "LEZ", carsAffected := true,
     charge := "£60 first offence (doubles, max £480)", chargeAmount := 60.00,
     petrolMinEuro := some 4, dieselMinEuro := some 6 },
   { id := "edinburgh_lez", name := "Edinburgh LEZ", region := "Scotland",
     ztype := "penalty", zclass := "LEZ", carsAffected := true,
     charge := "£60 first offence (doubles, max £480)", chargeAmount := 60.00,
     petrolMinEuro := some 4, dieselMinEuro := some 6 },
   { id := "aberdeen_lez", name := "Aberdeen LEZ", region := "Scotland",
     ztype := "penalty", zclass := "LEZ", carsAffected := true,
     charge := "£60 first offence (doubles, max £480)", chargeAmount := 60.00,
     petrolMinEuro := some 4, dieselMinEuro := some 6 },
   { id := "dundee_lez", name := "Dundee LEZ", region := "Scotland",
     ztype := "penalty", zclass := "LEZ", carsAffected := true,
     charge := "£60 first offence (doubles, max £480)", chargeAmount := 60.00,
     petrolMinEuro := some 4, dieselMinEuro := some 6 },
   { id := "oxford_zez", name := "Oxford ZEZ", region := "England",
     ztype := "daily_charge", zclass := "ZEZ", carsAffected := true,
     charge := "£4-£10/day (all non-EVs)", chargeAmount := 4.00,
     petrolMinEuro := none, dieselMinEuro := none }]

/-- `_parse_euro_number`: the first digit found anywhere in the string
(`re.search(r"(\d)")`), as a number. -/
def parseEuroNumber (euroStatus : String) : Option ℕ :=
  (euroStatus.data.find? fun c => c.isDigit).map fun c => c.toNat - 48

/-- `_estimate_euro_from_year`: fuel-specific year thresholds, diesel stricter
than petrol.  (The source signature says `Optional[int]` but every branch
returns a number.) -/
def estimateEuroFromYear (year : ℤ) (fuelType : String) : ℕ :=
  let fuelUpper := strUpper fuelType
  let isDiesel := DIESEL_FUEL_TYPES.contains fuelUpper || strHas fuelUpper "DIESEL"
  if isDiesel then
    if 2015 ≤ year then 6
    else if 2009 ≤ year then 5
    else if 2006 ≤ year then 4
    else if 2001 ≤ year then 3
    else 2
  else
    if 2011 ≤ year then 6
    else if 2006 ≤ year then 5
    else if 2001 ≤ year then 4
    else if 1997 ≤ year then 3
    else 2

/-- The relevant fields of the DVLA vehicle record consumed by
`calculate_ulez_compliance` (each `vehicle_data.get(...)` may be absent). -/
structure VehicleData where
  fuelType : Option String
  euroStatus : Option String
  yearOfManufacture : Option ℤ
  deriving Repr, DecidableEq

/-- Per-zone entry of `zone_details`. -/
structure ZoneDetail where
  zoneId : String
  name : String
  region : String
  compliant : Bool
  charge : String
  carsAffected : Bool
  zoneType : String
  deriving Repr, DecidableEq

/-- One entry of `charges_list` (a non-compliant zone that affects cars). -/
structure ChargeEntry where
  zone : String
  charge : String
  amount : ℚ
  ctype : String
  deriving Repr, DecidableEq

/-- Result of `calculate_ulez_compliance`.  The human-readable `reason` and
`daily_charge` summary strings are omitted; fields that a given Python branch
leaves out of its dict keep their neutral defaults. -/
structure UlezResult where
  compliant : Option Bool := none
  status : String := "unknown"
  euroStandard : Option ℕ := none
  euroInferred : Option Bool := none
  fuelType : String := ""
  zones : List (String × Bool) := []
  zoneDetails : List ZoneDetail := []
  totalZones : ℕ := 0
  compliantZones : ℕ := 0
  nonCompliantZones : ℕ := 0
  chargesApplyZones : ℕ := 0
  deriving Repr, DecidableEq

/-- Compliance of one zone for a non-exempt vehicle with resolved Euro number:
the zero-emission zone admits no fossil-fuel vehicle, zones not affecting cars
are trivially compliant, and otherwise the fuel-specific minimum Euro standard
decides (an absent minimum means non-compliant). -/
def zoneCompliantFor (isEv isDiesel isPetrol : Bool) (fuelType : String)
    (euroNumber : ℕ) (z : ZoneRule) : Bool :=
  if z.zclass == "ZEZ" then
    if !z.carsAffected then true else isEv
  else if !z.carsAffected then true
  else
    let minEuro :=
      if isDiesel then z.dieselMinEuro
      else if isPetrol then z.petrolMinEuro
      else if strHas fuelType "DIESEL" then z.dieselMinEuro
      else z.petrolMinEuro
    match minEuro with
    | some m => decide (m ≤ euroNumber)
    | none => false

/-- `calculate_ulez_compliance`: electric/hydrogen vehicles are exempt
everywhere; otherwise a Euro number is parsed from the label or inferred from
the manufacture year (an `unknown` result when neither exists) and every zone
of the table is checked; the aggregate is compliance with all zones that
affect cars. -/
def calculateUlezCompliance (vehicleData : Option VehicleData) : UlezResult :=
  match vehicleData with
  | none => { status := "unknown" }
  | some vd =>
    let fuelType := strUpper (vd.fuelType.getD "")
    let isEv := EXEMPT_FUEL_TYPES.contains fuelType
    if isEv then
      { compliant := some true, status := "exempt", euroStandard := none,
        euroInferred := none, fuelType := fuelType,
        zones := ZONES.map fun z => (z.id, true),
        zoneDetails := ZONES.map fun z =>
          { zoneId := z.id, name := z.name, region := z.region, compliant := true,
            charge := "Exempt", carsAffected := z.carsAffected, zoneType := z.ztype },
        totalZones := ZONES.length, compliantZones := ZONES.length,
        nonCompliantZones := 0, chargesApplyZones := 0 }
    else
      let resolved : Option (ℕ × Bool) :=
        match parseEuroNumber (vd.euroStatus.getD "") with
        | some e => some (e, false)
        | none => vd.yearOfManufacture.map fun y => (estimateEuroFromYear y fuelType, true)
      match resolved with
      | none => { status := "unknown", fuelType := fuelType }
      | some (euroNumber, inferred) =>
        let isDiesel := DIESEL_FUEL_TYPES.contains fuelType || strHas fuelType "DIESEL"
        let isPetrol := PETROL_FUEL_TYPES.contains fuelType || strHas fuelType "PETROL"
        let zoneOk := zoneCompliantFor isEv isDiesel isPetrol fuelType euroNumber
        let zoneDetails := ZONES.map fun z =>
          { zoneId := z.id, name := z.name, region := z.region,
            compliant := zoneOk z,
            charge := if !zoneOk z && z.carsAffected then z.charge else "No charge",
            carsAffected := z.carsAffected, zoneType := z.ztype : ZoneDetail }
        let chargesList := ZONES.filterMap fun z =>
          if !zoneOk z && z.carsAffected then
            some { zone := z.name, charge := z.charge, amount := z.chargeAmount,
                   ctype := z.ztype : ChargeEntry }
          else none
        let carZones := zoneDetails.filter fun d => d.carsAffected
        let allCompliant := carZones.all fun d => d.compliant
        { compliant := some allCompliant,
          status := if allCompliant then "compliant" else "non_compliant",
          euroStandard := some euroNumber,
          euroInferred := if euroNumber ≠ 0 then some inferred else none,
          fuelType := fuelType,
          zones := ZONES.map fun z => (z.id, zoneOk z),
          zoneDetails := zoneDetails,
          totalZones := ZONES.length,
          compliantZones := (zoneDetails.filter fun d => d.compliant).length,
          nonCompliantZones := (carZones.filter fun d => !d.compliant).length,
          chargesApplyZones := chargesList.length }

end CarCheck

namespace CarCheck

theorem parseEuroNumber_eq_none {s : String} (h : ∀ c ∈ s.data, ¬ c.isDigit) :
    parseEuroNumber s = none := by
  unfold parseEuroNumber
  rw [List.find?_eq_none.mpr fun c hc => by simpa using h c hc]
  rfl

theorem calcUlez_noDigitLabel (fuel s : String) (y : ℤ)
    (h : ∀ c ∈ s.data, ¬ c.isDigit) :
    calculateUlezCompliance (some ⟨some fuel, some s, some y⟩) =
      calculateUlezCompliance (some ⟨some fuel, none, some y⟩) := by
  have hp : parseEuroNumber s = none := parseEuroNumber_eq_none h
  have hp0 : parseEuroNumber "" = none := rfl
  simp only [calculateUlezCompliance, Option.getD_some, Option.getD_none, hp, hp0]

/-- C3: with no digit in the Euro-standard label the engine falls back to the
fuel-specific year thresholds (diesel reaches Euro 6 only from 2015, petrol
already from 2011), so a 2014 diesel resolves to an inferred Euro 5 and is
non-compliant with London ULEZ (diesel minimum Euro 6), while a 2016 diesel
resolves to Euro 6 and is compliant with it. -/
theorem euro_inference_diesel_vs_petrol :
    (∀ y : ℤ, 2015 ≤ y → estimateEuroFromYear y "DIESEL" = 6) ∧
    (∀ y : ℤ, 2011 ≤ y → estimateEuroFromYear y "PETROL" = 6) ∧
    (∀ s : String, (∀ c ∈ s.data, ¬ c.isDigit) →
      (calculateUlezCompliance (some ⟨some "DIESEL", some s, some 2014⟩)).euroStandard =
          some 5 ∧
      (calculateUlezCompliance (some ⟨some "DIESEL", some s, some 2014⟩)).euroInferred =
          some true ∧
      (calculateUlezCompliance
          (some ⟨some "DIESEL", some s, some 2014⟩)).zones.lookup "london_ulez" =
          some false ∧
      (calculateUlezCompliance (some ⟨some "DIESEL", some s, some 2016⟩)).euroStandard =
          some 6 ∧
      (calculateUlezCompliance
          (some ⟨some "DIESEL", some s, some 2016⟩)).zones.lookup "london_ulez" =
          some true) := by
  refine ⟨?_, ?_, ?_⟩
  · intro y hy
    simp only [estimateEuroFromYear]
    rw [if_pos (by decide), if_pos hy]
  · intro y hy
    simp only [estimateEuroFromYear]
    rw [if_neg (by decide), if_pos hy]
  · intro s hs
    rw [calcUlez_noDigitLabel "DIESEL" s 2014 hs, calcUlez_noDigitLabel "DIESEL" s 2016 hs]
    refine ⟨?_, ?_, ?_, ?_, ?_⟩ <;> decide

/-- Witness for C3 at year 2015 (diesel), year 2011 (petrol) and the
digit-free label `"N/A"`. -/
theorem euro_inference_diesel_vs_petrol_witness :
    estimateEuroFromYear 2015 "DIESEL" = 6 ∧
    estimateEuroFromYear 2011 "PETROL" = 6 ∧
    (calculateUlezCompliance (some ⟨some "DIESEL", some "N/A", some 2014⟩)).euroStandard =
      some 5 :=
  ⟨euro_inference_diesel_vs_petrol.1 2015 (by norm_num),
   euro_inference_diesel_vs_petrol.2.1 2011 (by norm_num),
   (euro_inference_diesel_vs_petrol.2.2 "N/A" (by decide)).1⟩

/-- C4: a petrol car with label `Euro 4` is compliant with every car-affecting
zone except the Oxford zero-emission zone, non-compliant there, and the
aggregate — the conjunction over all car-affecting zones — is therefore
`false`. -/
theorem petrol_euro4_aggregate :
    ((calculateUlezCompliance (some ⟨some "Petrol", some "Euro 4", none⟩)).zoneDetails.all
        fun d => !d.carsAffected || (d.zoneId == "oxford_zez") || d.compliant) = true ∧
    (calculateUlezCompliance
        (some ⟨some "Petrol", some "Euro 4", none⟩)).zones.lookup "oxford_zez" =
      some false ∧
    (calculateUlezCompliance
        (some ⟨some "Petrol", some "Euro 4", none⟩)).zones.lookup "london_ulez" =
      some true ∧
    (calculateUlezCompliance
        (some ⟨some "Petrol", some "Euro 4", none⟩)).zones.lookup "birmingham_caz" =
      some true ∧
    (calculateUlezCompliance
        (some ⟨some "Petrol", some "Euro 4", none⟩)).zones.lookup "bristol_caz" =
      some true ∧
    (calculateUlezCompliance
        (some ⟨some "Petrol", some "Euro 4", none⟩)).zones.lookup "glasgow_lez" =
      some true ∧
    (calculateUlezCompliance
        (some ⟨some "Petrol", some "Euro 4", none⟩)).zones.lookup "edinburgh_lez" =
      some true ∧
    (calculateUlezCompliance
        (some ⟨some "Petrol", some "Euro 4", none⟩)).zones.lookup "aberdeen_lez" =
      some true ∧
    (calculateUlezCompliance
        (some ⟨some "Petrol", some "Euro 4", none⟩)).zones.lookup "dundee_lez" =
      some true ∧
    (calculateUlezCompliance (some ⟨some "Petrol", some "Euro 4", none⟩)).compliant =
      some false ∧
    (calculateUlezCompliance (some ⟨some "Petrol", some "Euro 4", none⟩)).compliant =
      some
        (((calculateUlezCompliance
              (some ⟨some "Petrol", some "Euro 4", none⟩)).zoneDetails.filter
            fun d => d.carsAffected).all
          fun d => d.compliant) := by
  refine ⟨?_, ?_, ?_, ?_, ?_, ?_, ?_, ?_, ?_, ?_, ?_⟩ <;> decide

end CarCheck

namespace CarCheck

/-- One mileage-timeline entry (`{date, miles, unit}`). -/
structure TimelineEntry where
  date : Option ℤ
  miles : ℤ
  unit : String
  deriving Repr, DecidableEq

/-- `MOTAnalyzer._build_mileage_timeline`. -/
def buildMileageTimeline (tests : List MotTest) : List TimelineEntry :=
  tests.filterMap fun t => t.odometerValue.map fun m =>
    { date := t.completedDate, miles := m, unit := t.odometerUnit.getD "mi" }

/-- Ascending comparison of sort keys: a missing/unparsable date (the empty
string in `t.get("completedDate", "")`) sorts first. -/
def dateLeKey : Option ℤ → Option ℤ → Bool
  | none, _ => true
  | some _, none => false
  | some a, some b => a ≤ b

/-- Stable insertion for the chronological sort of `analyze`. -/
def insertByDate (x : MotTest) : List MotTest → List MotTest
  | [] => [x]
  | y :: ys =>
    if dateLeKey x.completedDate y.completedDate then x :: y :: ys
    else y :: insertByDate x ys

/-- The stable chronological sort `sorted(tests, key=...completedDate...)`. -/
def sortTestsByDate : List MotTest → List MotTest
  | [] => []
  | x :: xs => insertByDate x (sortTestsByDate xs)

/-- The analytic fields of the `analyze` result (the `mot_summary`,
`mot_tests` and `raw_tests` presentation fields are omitted). -/
structure AnalyzeResult where
  clockingAnalysis : ClockingResult
  conditionScore : Option ℤ
  mileageTimeline : List TimelineEntry
  failurePatterns : List FailurePattern
  deriving Repr, DecidableEq

/-- `MOTAnalyzer._empty_result`: unknown clocking verdict, `None` condition
score, empty timeline and patterns. -/
def emptyResult : AnalyzeResult :=
  { clockingAnalysis := { clocked := false, riskLevel := "unknown", flags := [] },
    conditionScore := none, mileageTimeline := [], failurePatterns := [] }

/-- `MOTAnalyzer.analyze`: missing data or an empty test list yield the empty
result; otherwise the tests are sorted chronologically and the four analyses
run on the sorted history. -/
def analyze (motTests : Option (List MotTest)) : AnalyzeResult :=
  match motTests with
  | none => emptyResult
  | some tests =>
    if tests.isEmpty then emptyResult
    else
      { clockingAnalysis := detectClocking (sortTestsByDate tests),
        conditionScore := some (calculateConditionScore (sortTestsByDate tests)),
        mileageTimeline := buildMileageTimeline (sortTestsByDate tests),
        failurePatterns := analyzeFailurePatterns (sortTestsByDate tests) }

/-- A Python `date` as used by `calculate_vehicle_stats`: its calendar year
and its proleptic day ordinal (differences of dates are ordinal
differences). -/
structure PyDate where
  year : ℤ
  ord : ℤ
  deriving Repr, DecidableEq

/-- The DVLA fields read by `calculate_vehicle_stats`; date-valued fields are
day ordinals with `none` for a missing or unparsable value. -/
structure DvlaData where
  yearOfManufacture : Option ℤ
  monthOfFirstRegistration : Option String
  motExpiryDate : Option ℤ
  taxDueDate : Option ℤ
  dateOfLastV5CIssued : Option ℤ
  deriving Repr, DecidableEq

/-- The optional-everywhere statistics dict of `calculate_vehicle_stats`;
a `none` field models an absent key. -/
structure VehicleStats where
  vehicleAgeYears : Option ℤ := none
  yearOfManufacture : Option ℤ := none
  firstRegistered : Option String := none
  motExpiryDate : Option ℤ := none
  motDaysRemaining : Option ℤ := none
  motStatusDetail : Option String := none
  taxDueDate : Option ℤ := none
  taxDaysRemaining : Option ℤ := none
  taxStatusDetail : Option String := none
  v5cIssuedDate : Option ℤ := none
  v5cDaysSince : Option ℤ := none
  v5cInsight : Option String := none
  estimatedAnnualMileage : Option ℤ := none
  totalRecordedMileage : Option ℤ := none
  mileageReadingsCount : Option ℕ := none
  mileageAssessment : Option String := none
  totalAdvisoryItems : Option ℕ := none
  totalFailureItems : Option ℕ := none
  totalDangerousItems : Option ℕ := none
  totalMajorItems : Option ℕ := none
  totalMinorItems : Option ℕ := none
  deriving Repr, DecidableEq

/-- The estimated-annual-mileage block of `calculate_vehicle_stats`: rounded
annual average, total recorded mileage, reading count and the assessment
bucket, available when at least two readings with parseable dates span a
positive time. -/
def annualMileageStats (mileageTimeline : Option (List TimelineEntry)) :
    Option (ℤ × ℤ × ℕ × String) :=
  match mileageTimeline with
  | some tl =>
    if 2 ≤ tl.length then
      match tl.head?, tl.getLast? with
      | some first, some last =>
        match first.date, last.date with
        | some d1, some d2 =>
          if 0 < ((d2 - d1 : ℤ) : ℚ) / 365.25 then
            some (pyRound (((last.miles - first.miles : ℤ) : ℚ) /
                    (((d2 - d1 : ℤ) : ℚ) / 365.25)),
                  last.miles, tl.length,
                  if ((last.miles - first.miles : ℤ) : ℚ) /
                      (((d2 - d1 : ℤ) : ℚ) / 365.25) < 5000 then
                    "Below average mileage"
                  else if ((last.miles - first.miles : ℤ) : ℚ) /
                      (((d2 - d1 : ℤ) : ℚ) / 365.25) < 10000 then
                    "Average mileage"
                  else if ((last.miles - first.miles : ℤ) : ℚ) /
                      (((d2 - d1 : ℤ) : ℚ) / 365.25) < 15000 then
                    "Above average mileage"
                  else "High mileage")
          else none
        | _, _ => none
      | _, _ => none
    else none
  | none => none

/-- The per-severity defect totals block of `calculate_vehicle_stats`
(advisory, failure items, dangerous, major, minor); `none` when the test list
is missing or empty (Python `if mot_tests:`). -/
def defectTotals (motTests : Option (List MotTest)) : Option (ℕ × ℕ × ℕ × ℕ × ℕ) :=
  match motTests with
  | some tests =>
    if tests.isEmpty then none
    else
      let ds := tests.foldr (fun t acc => t.defects ++ acc) []
      some (ds.countP fun d => strUpper d.type == "ADVISORY",
            ds.countP fun d =>
              strUpper d.type == "DANGEROUS" || strUpper d.type == "MAJOR" ||
                strUpper d.type == "MINOR",
            ds.countP fun d => strUpper d.type == "DANGEROUS",
            ds.countP fun d => strUpper d.type == "MAJOR",
            ds.countP fun d => strUpper d.type == "MINOR")
  | none => none

/-- `calculate_vehicle_stats`: every statistics field is computed
independently from the DVLA record, the MOT tests and the mileage timeline,
against the explicit `today`; absent inputs leave the affected fields
absent. -/
def calculateVehicleStats (today : PyDate) (dvla : Option DvlaData)
    (motTests : Option (List MotTest)) (mileageTimeline : Option (List TimelineEntry)) :
    VehicleStats :=
  { vehicleAgeYears :=
      (dvla.bind fun d => d.yearOfManufacture).map fun y => today.year - y,
    yearOfManufacture := dvla.bind fun d => d.yearOfManufacture,
    firstRegistered := dvla.bind fun d => d.monthOfFirstRegistration,
    motExpiryDate := dvla.bind fun d => d.motExpiryDate,
    motDaysRemaining := (dvla.bind fun d => d.motExpiryDate).map fun e => e - today.ord,
    motStatusDetail := (dvla.bind fun d => d.motExpiryDate).map fun e =>
      let delta := e - today.ord
      if delta < 0 then
        let m := -delta
        s!"Expired {m} days ago"
      else if delta = 0 then "Expires today"
      else if delta ≤ 30 then s!"Expires in {delta} days"
      else s!"Valid for {delta} days",
    taxDueDate := dvla.bind fun d => d.taxDueDate,
    taxDaysRemaining := (dvla.bind fun d => d.taxDueDate).map fun e => e - today.ord,
    taxStatusDetail := (dvla.bind fun d => d.taxDueDate).map fun e =>
      let delta := e - today.ord
      if delta < 0 then
        let m := -delta
        s!"Expired {m} days ago"
      else if delta = 0 then "Due today"
      else if delta ≤ 30 then s!"Due in {delta} days"
      else s!"Valid for {delta} days",
    v5cIssuedDate := dvla.bind fun d => d.dateOfLastV5CIssued,
    v5cDaysSince :=
      (dvla.bind fun d => d.dateOfLastV5CIssued).map fun v => today.ord - v,
    v5cInsight := (dvla.bind fun d => d.dateOfLastV5CIssued).map fun v =>
      let daysSince := today.ord - v
      if daysSince ≤ 90 then "V5C recently issued - may indicate recent ownership change"
      else if daysSince ≤ 365 then s!"V5C issued {daysSince} days ago"
      else
        let y := daysSince / 365
        let plural := if 1 < y then "s" else ""
        s!"V5C issued ~{y} year{plural} ago",
    estimatedAnnualMileage := (annualMileageStats mileageTimeline).map fun p => p.1,
    totalRecordedMileage := (annualMileageStats mileageTimeline).map fun p => p.2.1,
    mileageReadingsCount := (annualMileageStats mileageTimeline).map fun p => p.2.2.1,
    mileageAssessment := (annualMileageStats mileageTimeline).map fun p => p.2.2.2,
    totalAdvisoryItems := (defectTotals motTests).map fun p => p.1,
    totalFailureItems := (defectTotals motTests).map fun p => p.2.1,
    totalDangerousItems := (defectTotals motTests).map fun p => p.2.2.1,
    totalMajorItems := (defectTotals motTests).map fun p => p.2.2.2.1,
    totalMinorItems := (defectTotals motTests).map fun p => p.2.2.2.2 }

/-- C8: an empty inspection history is handled without failure — the scorer
itself returns the neutral 50 (neither 0 nor 100), and `analyze` returns its
empty result (a `None` condition score) for missing data and for an empty
test list. -/
theorem empty_history_neutral_score :
    calculateConditionScore [] = 50 ∧
    calculateConditionScore [] ≠ 0 ∧ calculateConditionScore [] ≠ 100 ∧
    (analyze none).conditionScore = none ∧
    (analyze (some [])).conditionScore = none :=
  ⟨rfl, by decide, by decide, rfl, rfl⟩

/-- C9: every component of the engine is a pure function — two invocations on
identical inputs give identical results; the wall-clock read of the stats
calculation is its explicit `today` input, and no other component takes a
date-of-today at all. -/
theorem components_deterministic :
    (∀ motTests : Option (List MotTest), analyze motTests = analyze motTests) ∧
    (∀ (today : PyDate) (dvla : Option DvlaData) (motTests : Option (List MotTest))
        (tl : Option (List TimelineEntry)),
      calculateVehicleStats today dvla motTests tl =
        calculateVehicleStats today dvla motTests tl) ∧
    (∀ tests : List MotTest, detectClocking tests = detectClocking tests) ∧
    (∀ tests : List MotTest,
      calculateConditionScore tests = calculateConditionScore tests) ∧
    (∀ tests : List MotTest,
      analyzeFailurePatterns tests = analyzeFailurePatterns tests) ∧
    (∀ vd : Option VehicleData, calculateUlezCompliance vd = calculateUlezCompliance vd) :=
  ⟨fun _ => rfl, fun _ _ _ _ => rfl, fun _ => rfl, fun _ => rfl, fun _ => rfl, fun _ => rfl⟩

end CarCheck
